import Mathlib

/-!
Verification of the SCIM 2.0 protocol-compliance engine of open-webui
(`backend/open_webui/routers/scim_users.py`, `scim_groups.py`,
`scim_schemas.py`, `utils/scim_utils.py`, `utils/scim_exceptions.py`,
`models/scim_schemas.py`) against its natural-language specification.

The Python code is shallowly embedded: records become structures, the
store collaborator becomes an explicit list of records, exceptions become
an `Except` error channel, and Python string/truthiness primitives are
modelled by executable Lean functions below.
-/

deriving instance DecidableEq for Except

namespace Scim

/-! ## Python primitives -/

/-- Python truthiness of an optional string: `None` and `""` are falsy. -/
def truthyOptStr : Option String → Bool
  | none => false
  | some s => s ≠ ""

/-- Python truthiness of an optional bool: `None` and `False` are falsy. -/
def truthyOptBool : Option Bool → Bool
  | none => false
  | some b => b

/-- Python `str.split(sep)` with a one-character separator, on char lists:
keeps empty fields, and `"".split(sep) == [""]`. -/
def pySplitChars (sep : Char) : List Char → List (List Char)
  | [] => [[]]
  | c :: cs =>
      let rest := pySplitChars sep cs
      if c = sep then [] :: rest
      else
        match rest with
        | r :: rs => (c :: r) :: rs
        | [] => [[c]]

/-- Python `s.split(sep)` for a one-character separator `sep`. -/
def pySplit (s : String) (sep : Char) : List String :=
  (pySplitChars sep s.data).map (fun cs => String.mk cs)

/-- Python `s.split(sep, 1)`: split only at the first occurrence. -/
def pySplitFirstChars (sep : Char) : List Char → List Char × Option (List Char)
  | [] => ([], none)
  | c :: cs =>
      if c = sep then ([], some cs)
      else
        let (a, b) := pySplitFirstChars sep cs
        (c :: a, b)

/-- Python `s.strip(c)`: remove all leading and trailing occurrences of `c`. -/
def pyStrip (s : String) (c : Char) : String :=
  String.mk (((s.data.dropWhile (· = c)).reverse.dropWhile (· = c)).reverse)

/-- ASCII lowering of one character (what Python `.lower()` does on the
ASCII inputs this engine compares). -/
def pyLowerChar (c : Char) : Char :=
  if 'A' ≤ c ∧ c ≤ 'Z' then Char.ofNat (c.toNat + 32) else c

/-- Python `s.lower()` restricted to ASCII. -/
def pyLower (s : String) : String :=
  String.mk (s.data.map pyLowerChar)

/-- Python `s.startswith(pre)`. -/
def pyStartsWith (s pre : String) : Bool :=
  pre.data.isPrefixOf s.data

/-- Python `repr` of an optional string as interpolated by an f-string:
`None` renders as the text `None`. -/
def pyShowOptStr : Option String → String
  | none => "None"
  | some s => s

/-! ## Error model (`utils/scim_exceptions.py`) -/

/-- A SCIM protocol error: HTTP status, `scimType`, and detail message,
as raised by the exception classes in `utils/scim_exceptions.py`. -/
structure ScimErr where
  status : Nat
  scimType : String
  detail : String
deriving Repr, DecidableEq

/-- `SCIMBadRequestError(detail)`: status 400, scimType `invalidValue`. -/
def SCIMBadRequestError (detail : String) : ScimErr :=
  ⟨400, "invalidValue", detail⟩

/-- `SCIMNotFoundError(detail)`: status 404, scimType `notFound`. -/
def SCIMNotFoundError (detail : String) : ScimErr :=
  ⟨404, "notFound", detail⟩

/-- `SCIMConflictError(detail)`: status 409, scimType `uniqueness`. -/
def SCIMConflictError (detail : String) : ScimErr :=
  ⟨409, "uniqueness", detail⟩

/-- `SCIMInternalServerError(detail)`: status 500, scimType `internalServerError`. -/
def SCIMInternalServerError (detail : String) : ScimErr :=
  ⟨500, "internalServerError", detail⟩

/-- `SCIMNotImplementedError(detail)`: status 501, scimType `notImplemented`. -/
def SCIMNotImplementedError (detail : String) : ScimErr :=
  ⟨501, "notImplemented", detail⟩

/-- How a route handler terminates abnormally: either a raised SCIM
exception, or an uncaught Python exception (NameError / TypeError),
which FastAPI surfaces as a plain HTTP 500. -/
inductive RouteErr where
  | scim (e : ScimErr)
  | nameError (missing : String)
  | typeError (msg : String)
deriving Repr, DecidableEq

/-! ## Data model

The internal `UserModel` / `GroupModel` record classes live in
`models/users.py` / `models/groups.py`, which are outside this SCIM
sub-tree; their field shapes are modelled from the spec (§3) and from how
the SCIM code and its tests construct them. Timestamps are epoch seconds
(`Option Int`: the store may leave the modification time absent). -/

/-- Modelled from the spec: the internal User record (§3) — unique id,
unique email, display name, role (the value `pending` means inactive),
creation/modification timestamps. Matches the `UserModel(...)`
constructions in `test_scim_users_router.py`. -/
structure UserModel where
  id : String
  email : String
  name : String
  role : String
  created_at : Option Int := none
  updated_at : Option Int := none
deriving Repr, DecidableEq

/-- Modelled from the spec: the internal Group record (§3) — unique id,
unique display name, member user ids, timestamps. Matches the
`GroupModel(...)` constructions in `test_scim_groups_router.py`. -/
structure GroupModel where
  id : String
  name : String
  user_ids : List String
  created_at : Option Int := none
  updated_at : Option Int := none
deriving Repr, DecidableEq

/-! ## Wire resources (`models/scim_schemas.py`) -/

def USER_SCHEMA_URN : String := "urn:ietf:params:scim:schemas:core:2.0:User"
def GROUP_SCHEMA_URN : String := "urn:ietf:params:scim:schemas:core:2.0:Group"
def LIST_RESPONSE_URN : String := "urn:ietf:params:scim:api:messages:2.0:ListResponse"

/-- `SCIMName` (only the fields the mappers read or write). -/
structure SCIMName where
  formatted : Option String := none
  familyName : Option String := none
  givenName : Option String := none
deriving Repr, DecidableEq

/-- `SCIMMeta`: resource type tag, timestamps, self location URL. -/
structure SCIMMeta where
  resourceType : String
  created : Option Int := none
  lastModified : Option Int := none
  location : Option String := none
deriving Repr, DecidableEq

/-- `SCIMEmail` (a multi-valued attribute entry). -/
structure SCIMEmail where
  value : Option String := none
  type : Option String := none
  primary : Option Bool := some false
deriving Repr, DecidableEq

/-- `SCIMGroupMember`. -/
structure SCIMGroupMember where
  value : String
  ref : Option String := none
  type : Option String := none
  display : Option String := none
deriving Repr, DecidableEq

/-- `SCIMUser` (the fields the engine reads or writes). -/
structure SCIMUser where
  schemas : List String := [USER_SCHEMA_URN]
  id : String
  externalId : Option String := none
  userName : String
  name : Option SCIMName := none
  displayName : Option String := none
  active : Option Bool := some false
  password : Option String := none
  emails : Option (List SCIMEmail) := none
  meta : SCIMMeta
deriving Repr, DecidableEq

/-- `SCIMGroup`. -/
structure SCIMGroup where
  schemas : List String := [GROUP_SCHEMA_URN]
  id : String
  externalId : Option String := none
  displayName : String
  members : Option (List SCIMGroupMember) := none
  meta : SCIMMeta
deriving Repr, DecidableEq

/-- `SCIMListResponse` over users. -/
structure SCIMUserListResponse where
  schemas : List String
  totalResults : Nat
  startIndex : Nat
  itemsPerPage : Nat
  Resources : List SCIMUser
deriving Repr, DecidableEq

/-- `SCIMListResponse` over groups. -/
structure SCIMGroupListResponse where
  schemas : List String
  totalResults : Nat
  startIndex : Nat
  itemsPerPage : Nat
  Resources : List SCIMGroup
deriving Repr, DecidableEq

/-! ## Resource Mapper (`utils/scim_utils.py`) -/

/-- `user_to_scim_user(user, base_url)` from `utils/scim_utils.py`.
The given/family names come from splitting the stored display name on the
first space; `active` is the projection `role != "pending"`; `lastModified`
is only populated inside the `if user.updated_at is not None` block — the
`elif created_dt` arm that would default it to `created` is nested under
that test and is unreachable when `updated_at` is `None`. -/
def user_to_scim_user (user : UserModel) (base_url : String) : SCIMUser :=
  -- name splitting: only when `user.name` is truthy
  let parts :=
    if user.name ≠ "" then some (pySplitFirstChars ' ' user.name.data) else none
  let given_name : Option String := parts.map (fun p => String.mk p.1)
  let family_name : Option String :=
    match parts with
    | some (_, some rest) => some (String.mk rest)
    | _ => none
  -- timestamps: `created_at` / `updated_at` are numbers or None in the
  -- store, so the `isinstance(..., (int, float))` arm is the live one
  let created_dt : Option Int := user.created_at
  let last_modified_dt : Option Int :=
    match user.updated_at with
    | some t => some t     -- isinstance(updated_at, (int, float))
    | none => none         -- outer `if user.updated_at is not None` fails
  { schemas := [USER_SCHEMA_URN]
    id := user.id
    userName := user.email
    name := some { formatted := some user.name
                   givenName := given_name
                   familyName := family_name }
    displayName := some user.name
    active := some (user.role ≠ "pending")
    emails := some [{ value := some user.email, primary := some true, type := some "work" }]
    meta := { resourceType := "User"
              created := created_dt
              lastModified := last_modified_dt
              location := some (base_url ++ "/Users/" ++ user.id) }
    externalId := none }

/-- The partial-update dict produced by `scim_user_to_db_dict`. -/
structure UserDbDict where
  email : String
  name : String
  role : String
  id : Option String := none
  external_id : Option String := none
deriving Repr, DecidableEq

/-- `scim_user_to_db_dict(scim_user)` from `utils/scim_utils.py`: the
name falls through `formatted` → `displayName` → `givenName+familyName`
→ `givenName` → `userName` (there is no familyName-alone branch), and
`role` is `"user"` exactly when `active` is truthy. -/
def scim_user_to_db_dict (scim_user : SCIMUser) : UserDbDict :=
  let name :=
    if scim_user.name.isSome ∧ truthyOptStr (scim_user.name.bind (·.formatted)) then
      (scim_user.name.bind (·.formatted)).getD ""
    else if truthyOptStr scim_user.displayName then
      scim_user.displayName.getD ""
    else if scim_user.name.isSome ∧ truthyOptStr (scim_user.name.bind (·.givenName))
        ∧ truthyOptStr (scim_user.name.bind (·.familyName)) then
      ((scim_user.name.bind (·.givenName)).getD "") ++ " "
        ++ ((scim_user.name.bind (·.familyName)).getD "")
    else if scim_user.name.isSome ∧ truthyOptStr (scim_user.name.bind (·.givenName)) then
      (scim_user.name.bind (·.givenName)).getD ""
    else
      scim_user.userName
  { email := scim_user.userName
    name := name
    role := if truthyOptBool scim_user.active then "user" else "pending"
    id := if scim_user.id ≠ "" then some scim_user.id else none
    external_id := if truthyOptStr scim_user.externalId then scim_user.externalId else none }

/-- `group_to_scim_group(group, members_users, base_url)` from
`utils/scim_utils.py`: each member id resolves against the supplied user
list; unknown ids keep the raw id as display text. The `lastModified`
handling has the same dead `elif created_dt` arm as the user mapper. -/
def group_to_scim_group (group : GroupModel) (members_users : List UserModel)
    (base_url : String) : SCIMGroup :=
  let scim_members := group.user_ids.map (fun user_id =>
    let display :=
      match members_users.find? (fun u => u.id = user_id) with
      | some u => u.email
      | none => user_id
    ({ value := user_id
       display := some display
       ref := some (base_url ++ "/Users/" ++ user_id)
       type := some "User" } : SCIMGroupMember))
  let created_dt : Option Int := group.created_at
  let last_modified_dt : Option Int :=
    match group.updated_at with
    | some t => some t     -- isinstance(updated_at, (int, float))
    | none => none         -- outer `if group.updated_at is not None` fails
  { schemas := [GROUP_SCHEMA_URN]
    id := group.id
    displayName := group.name
    members := some scim_members
    meta := { resourceType := "Group"
              created := created_dt
              lastModified := last_modified_dt
              location := some (base_url ++ "/Groups/" ++ group.id) }
    externalId := none }

/-- The partial-update dict produced by `scim_group_to_db_dict`. -/
structure GroupDbDict where
  name : String
  user_ids : List String
  description : String
  id : Option String := none
  external_id : Option String := none
deriving Repr, DecidableEq

/-- `scim_group_to_db_dict(scim_group)` from `utils/scim_utils.py`. -/
def scim_group_to_db_dict (scim_group : SCIMGroup) : GroupDbDict :=
  { name := scim_group.displayName
    user_ids := match scim_group.members with
      | some ms => ms.map (·.value)
      | none => []
    description := ""
    id := if scim_group.id ≠ "" then some scim_group.id else none
    external_id := if truthyOptStr scim_group.externalId then scim_group.externalId else none }

/-! ## Store collaborator (spec §6)

Modelled from the spec: the persistence layer (`models/users.py`,
`models/groups.py`) is outside this sub-tree; the spec treats it as a
black-box store keyed by id with lookup by unique email, listing, and
field updates. We model it as explicit record lists. -/

/-- `Users.get_user_by_email(email)`: lookup by unique email. -/
def get_user_by_email (store : List UserModel) (email : String) : Option UserModel :=
  store.find? (fun u => u.email = email)

/-- `Users.get_user_by_id(id)`. -/
def get_user_by_id (store : List UserModel) (id : String) : Option UserModel :=
  store.find? (fun u => u.id = id)

/-- `Groups.get_group_by_id(id)`. -/
def get_group_by_id (store : List GroupModel) (id : String) : Option GroupModel :=
  store.find? (fun g => g.id = id)

/-- `Users.get_users_by_user_ids(ids)`. -/
def get_users_by_user_ids (store : List UserModel) (ids : List String) : List UserModel :=
  store.filter (fun u => u.id ∈ ids)

/-! ## Listing & Filtering Pipeline (`get_users` / `get_groups`) -/

/-- Query parameters of a list request. FastAPI enforces
`startIndex ≥ 1` and `count ≥ 0` before the handler runs. -/
structure ListParams where
  startIndex : Nat := 1
  count : Nat := 100
  filter : Option String := none
  sortBy : Option String := none
  sortOrder : Option String := none
  attributes : Option String := none
  excludedAttributes : Option String := none
deriving Repr, DecidableEq

/-- Python list slicing `l[a:b]` for `0 ≤ a ≤ b`. -/
def pySlice (l : List α) (a b : Nat) : List α :=
  (l.drop a).take (b - a)

/-- The filter parser shared in shape by `get_users` and `get_groups`
(`scim_users.py` lines 57-64, `scim_groups.py` lines 56-62): split the
filter on spaces; it must give exactly three parts, the first matching
`attr` and the second matching `eq` case-insensitively; the value is the
third part with surrounding double quotes stripped. Anything else raises
`SCIMNotImplementedError`. A `None` or empty filter (Python truthiness)
means no filtering. -/
def parseEqFilter (attr : String) (filter : Option String) :
    Except ScimErr (Option String) :=
  match filter with
  | none => .ok none
  | some f =>
    if f = "" then .ok none
    else
      match pySplit f ' ' with
      | [p0, p1, p2] =>
        if pyLower p0 = attr ∧ pyLower p1 = "eq" then
          .ok (some (pyStrip p2 '"'))
        else
          .error (SCIMNotImplementedError ("Filter syntax not supported: " ++ f))
      | _ => .error (SCIMNotImplementedError ("Filter syntax not supported: " ++ f))

/-- Names `scim_users.py` imports from `models/scim_schemas.py`
(its lines 7-13): `LIST_RESPONSE_URN` is not among them, although line 88
uses it. -/
def scimUsersSchemaImports : List String :=
  ["SCIMUser", "SCIMListResponse", "SCIMPatchRequest", "USER_SCHEMA_URN"]

/-- Whether the name `LIST_RESPONSE_URN` is bound in the module scope of
`scim_users.py` (it is bound by no other import or definition there
either): evaluating it in `get_users` raises `NameError`. -/
def listResponseUrnBoundInScimUsers : Bool :=
  scimUsersSchemaImports.contains "LIST_RESPONSE_URN"

/-- `get_users` (GET /Users, `scim_users.py` lines 35-93): reject
sort/projection parameters, parse the `userName eq` filter, filter by
email, paginate with the 1-based `startIndex`, and build the list
response — whose construction evaluates the unimported name
`LIST_RESPONSE_URN` and therefore raises `NameError`. -/
def get_users (store : List UserModel) (p : ListParams) (base_scim_url : String) :
    Except RouteErr SCIMUserListResponse := do
  if truthyOptStr p.sortBy ∨ truthyOptStr p.sortOrder then
    throw (.scim (SCIMNotImplementedError "Sorting is not implemented for users."))
  if truthyOptStr p.attributes ∨ truthyOptStr p.excludedAttributes then
    throw (.scim (SCIMNotImplementedError "Attribute projection is not implemented for users."))
  let filter_email ← (parseEqFilter "username" p.filter).mapError RouteErr.scim
  let user_models :=
    match filter_email with
    | some e => store.filter (fun u => u.email = e)
    | none => store
  let total_results := user_models.length
  let start_index_0_based := p.startIndex - 1
  let end_index_0_based := start_index_0_based + p.count
  let paginated := pySlice user_models start_index_0_based end_index_0_based
  let scim_user_resources := paginated.map (fun u => user_to_scim_user u base_scim_url)
  if listResponseUrnBoundInScimUsers then
    return { schemas := [LIST_RESPONSE_URN]
             totalResults := total_results
             startIndex := p.startIndex
             itemsPerPage := scim_user_resources.length
             Resources := scim_user_resources }
  else
    throw (.nameError "LIST_RESPONSE_URN")

/-- The filtered group sequence of `get_groups` for a parsed filter. -/
def filteredGroups (store : List GroupModel) : Option String → List GroupModel
  | some v => store.filter (fun g => g.name = v)
  | none => store

/-- `get_groups` (GET /Groups, `scim_groups.py` lines 35-89): same
pipeline over groups, filtering on `displayName` against `GroupModel.name`
(here `LIST_RESPONSE_URN` is imported, so the response is built). -/
def get_groups (groups : List GroupModel) (users : List UserModel)
    (p : ListParams) (base_scim_url : String) :
    Except RouteErr SCIMGroupListResponse := do
  if truthyOptStr p.sortBy ∨ truthyOptStr p.sortOrder then
    throw (.scim (SCIMNotImplementedError "Sorting is not implemented for groups."))
  if truthyOptStr p.attributes ∨ truthyOptStr p.excludedAttributes then
    throw (.scim (SCIMNotImplementedError "Attribute projection is not implemented for groups."))
  let filter_display_name ← (parseEqFilter "displayname" p.filter).mapError RouteErr.scim
  let group_models := filteredGroups groups filter_display_name
  let total_results := group_models.length
  let start_index_0_based := p.startIndex - 1
  let end_index_0_based := start_index_0_based + p.count
  let paginated := pySlice group_models start_index_0_based end_index_0_based
  let scim_group_resources := paginated.map (fun g =>
    group_to_scim_group g (get_users_by_user_ids users g.user_ids) base_scim_url)
  return { schemas := [LIST_RESPONSE_URN]
           totalResults := total_results
           startIndex := p.startIndex
           itemsPerPage := scim_group_resources.length
           Resources := scim_group_resources }

/-! ## PATCH operations (`models/scim_schemas.py` `SCIMPatchOp`) -/

/-- One element of a `members` value list: either a dict carrying a
`"value"` key, or anything else (non-dict, or dict without the key). -/
inductive MemberItem where
  | withValue (v : String)
  | invalid
deriving Repr, DecidableEq

/-- The dynamically-typed `value` field of a PATCH operation. -/
inductive PatchValue where
  | vNone
  | vBool (b : Bool)
  | vStr (s : String)
  | vList (items : List MemberItem)
deriving Repr, DecidableEq

/-- Python truthiness of a PATCH value. -/
def truthyValue : PatchValue → Bool
  | .vNone => false
  | .vBool b => b
  | .vStr s => s ≠ ""
  | .vList l => l ≠ []

/-- `isinstance(value, bool)`. -/
def PatchValue.isBool : PatchValue → Bool
  | .vBool _ => true
  | _ => false

/-- `isinstance(value, str)`. -/
def PatchValue.isStr : PatchValue → Bool
  | .vStr _ => true
  | _ => false

/-- `isinstance(value, list)`. -/
def PatchValue.isList : PatchValue → Bool
  | .vList _ => true
  | _ => false

/-- `str(value)` as the f-strings and `str()` casts render it. -/
def PatchValue.pyStr : PatchValue → String
  | .vNone => "None"
  | .vBool true => "True"
  | .vBool false => "False"
  | .vStr s => s
  | .vList _ => "[...]"

/-- `SCIMPatchOp {op, path, value}`. -/
structure SCIMPatchOp where
  op : String
  path : Option String := none
  value : PatchValue := .vNone
deriving Repr, DecidableEq

/-! ## User PATCH engine (`scim_users.py` `patch_user`, lines 228-289) -/

/-- The `db_updates` dict accumulated by `patch_user`. -/
structure UserDbUpdates where
  role : Option String := none
  email : Option String := none
deriving Repr, DecidableEq

/-- Whether the `db_updates` dict is non-empty (Python truthiness). -/
def UserDbUpdates.nonEmpty (d : UserDbUpdates) : Bool :=
  d.role.isSome ∨ d.email.isSome

/-- `Users.update_user_by_id(id, db_updates)` applied to one record. -/
def applyUserUpdates (u : UserModel) (d : UserDbUpdates) : UserModel :=
  { u with role := d.role.getD u.role, email := d.email.getD u.email }

/-- A store write issued by the user PATCH engine:
`update_user_by_id(id, updates)`. -/
structure UserWrite where
  id : String
  updates : UserDbUpdates
deriving Repr, DecidableEq

/-- One iteration of the `patch_user` operation loop: `replace active`
sets `role` to `"user"` or `"pending"` from the boolean value (with no
look at the current role); `replace userName` checks the email for
conflicts; everything else is `SCIMNotImplementedError`. -/
def patchUserOp (store : List UserModel) (user_id : String) (user_model : UserModel)
    (db_updates : UserDbUpdates) (op : SCIMPatchOp) :
    Except RouteErr UserDbUpdates :=
  if pyLower op.op = "replace" then
    if truthyOptStr op.path ∧ pyLower (op.path.getD "") = "active" then
      match op.value with
      | .vBool b => .ok { db_updates with role := some (if b then "user" else "pending") }
      | _ => .error (.scim (SCIMBadRequestError "Invalid value for 'active', boolean expected."))
    else if truthyOptStr op.path ∧ pyLower (op.path.getD "") = "username" then
      match op.value with
      | .vStr s =>
          if s ≠ user_model.email then
            match get_user_by_email store s with
            | some existing_user =>
                if existing_user.id ≠ user_id then
                  .error (.scim (SCIMConflictError
                    ("userName '" ++ s ++ "' is already in use.")))
                else .ok { db_updates with email := some s }
            | none => .ok { db_updates with email := some s }
          else .ok db_updates
      | _ => .error (.scim (SCIMBadRequestError "Invalid value for 'userName', string expected."))
    else
      .error (.scim (SCIMNotImplementedError
        ("PATCH operation for path '" ++ pyShowOptStr op.path ++ "' with op '"
          ++ op.op ++ "' is not implemented.")))
  else
    .error (.scim (SCIMNotImplementedError
      ("PATCH operation '" ++ op.op ++ "' is not implemented.")))

/-- The operation loop of `patch_user`. -/
def patchUserOps (store : List UserModel) (user_id : String) (user_model : UserModel)
    (db_updates : UserDbUpdates) : List SCIMPatchOp → Except RouteErr UserDbUpdates
  | [] => .ok db_updates
  | op :: ops => do
      let d ← patchUserOp store user_id user_model db_updates op
      patchUserOps store user_id user_model d ops

/-- `patch_user` (PATCH /Users/{user_id}): fetch the user, run the
operation loop accumulating `db_updates`, then issue at most one
`update_user_by_id` store write. Returns the final user record and the
list of store writes issued. -/
def patch_user (store : List UserModel) (user_id : String)
    (ops : List SCIMPatchOp) : Except RouteErr UserModel × List UserWrite :=
  match get_user_by_id store user_id with
  | none => (.error (.scim (SCIMNotFoundError
      ("User with ID '" ++ user_id ++ "' not found."))), [])
  | some user_model =>
    match patchUserOps store user_id user_model {} ops with
    | .error e => (.error e, [])
    | .ok db_updates =>
      if db_updates.nonEmpty then
        (.ok (applyUserUpdates user_model db_updates), [⟨user_id, db_updates⟩])
      else
        (.ok user_model, [])

/-! ## User creation (`scim_users.py` `create_user`, lines 95-161) -/

/-- `create_user` (POST /Users): require a truthy `userName`, raise
Conflict if a user with that email already exists, then insert. Returns
the outcome and the resulting store (unchanged on every error path,
since both checks run before `insert_new_auth`). -/
def create_user (store : List UserModel) (payload : SCIMUser)
    (fresh_id : String) (now : Int) :
    Except RouteErr UserModel × List UserModel :=
  if payload.userName = "" then
    (.error (.scim (SCIMBadRequestError "userName is a required field.")), store)
  else
    match get_user_by_email store payload.userName with
    | some _ =>
        (.error (.scim (SCIMConflictError
          ("User with userName '" ++ payload.userName ++ "' already exists."))), store)
    | none =>
        let d := scim_user_to_db_dict payload
        let user_id := if payload.id ≠ "" then payload.id else fresh_id
        let new_user : UserModel :=
          { id := user_id
            email := d.email
            name := d.name
            role := d.role
            created_at := some now
            updated_at := some now }
        (.ok new_user, store ++ [new_user])

/-! ## Group PATCH engine (`scim_groups.py` `patch_group`, lines 204-284) -/

/-- The `db_updates` dict accumulated by `patch_group` (its possible keys
are `name` and `user_ids`). -/
structure GroupDbUpdates where
  name : Option String := none
  user_ids : Option (List String) := none
deriving Repr, DecidableEq

/-- Whether the group `db_updates` dict is non-empty (Python truthiness). -/
def GroupDbUpdates.nonEmpty (d : GroupDbUpdates) : Bool :=
  d.name.isSome ∨ d.user_ids.isSome

/-- `Groups.update_group_by_id(id, db_updates)` applied to one record. -/
def applyGroupUpdates (g : GroupModel) (d : GroupDbUpdates) : GroupModel :=
  { g with name := d.name.getD g.name, user_ids := d.user_ids.getD g.user_ids }

/-- A store write issued by the group PATCH engine:
`update_group_by_id(id, updates)`. -/
structure GroupWrite where
  id : String
  updates : GroupDbUpdates
deriving Repr, DecidableEq

/-- Python `set.add`: on a duplicate-free list, append if absent. -/
def setAdd (l : List String) (x : String) : List String :=
  if x ∈ l then l else l ++ [x]

/-- `set(ids)`: collapse duplicates, keeping first occurrences. -/
def setOfList (ids : List String) : List String :=
  ids.foldl setAdd []

/-- The in-memory staged state of the `patch_group` loop:
`current_user_ids` (a set), whether membership changed, and the scalar
`db_updates`. -/
structure GroupPatchState where
  db_updates : GroupDbUpdates
  current_user_ids : List String
  members_changed : Bool
deriving Repr, DecidableEq

/-- The member loop of `replace members`: rebuild the cleared set from
the value list, raising BadRequest at the first element that is not a
dict with a `"value"` key. -/
def replaceMembersLoop : List String → List MemberItem → Except RouteErr (List String)
  | ids, [] => .ok ids
  | ids, .withValue v :: rest => replaceMembersLoop (setAdd ids v) rest
  | _, .invalid :: _ =>
      .error (.scim (SCIMBadRequestError
        "Invalid member object in 'members' replace operation."))

/-- The member loop of `add members`: union each valid element into the
staged set, setting `members_changed` per element; BadRequest at the
first invalid element. -/
def addMembersLoop : GroupPatchState → List MemberItem → Except RouteErr GroupPatchState
  | st, [] => .ok st
  | st, .withValue v :: rest =>
      addMembersLoop { st with current_user_ids := setAdd st.current_user_ids v
                               members_changed := true } rest
  | _, .invalid :: _ =>
      .error (.scim (SCIMBadRequestError
        "Invalid member object in 'members' add operation."))

/-- The `replace displayName` arm of `patch_group`: conflict-check the
new name against every other group, then stage a `name` update if the
name actually changes. -/
def replaceDisplayNameArm (all_groups : List GroupModel) (group_id : String)
    (group_model : GroupModel) (st : GroupPatchState) (value : PatchValue) :
    Except RouteErr GroupPatchState :=
  let new_name := value.pyStr
  if new_name ≠ group_model.name then
    if all_groups.any (fun g => g.name = new_name ∧ g.id ≠ group_id) then
      .error (.scim (SCIMConflictError
        ("Another group with displayName '" ++ new_name ++ "' already exists.")))
    else
      .ok { st with db_updates := { st.db_updates with name := some new_name } }
  else
    .ok st

/-- The `replace members` arm of `patch_group`: clear the staged set,
then re-add from the value list (BadRequest on a malformed element);
a falsy value just clears membership. -/
def replaceMembersArm (st : GroupPatchState) (value : PatchValue) :
    Except RouteErr GroupPatchState :=
  -- current_user_ids.clear(), then re-add from the value list
  if truthyValue value then
    match value with
    | .vList items =>
        match replaceMembersLoop [] items with
        | .error e => .error e
        | .ok ids => .ok { st with current_user_ids := ids, members_changed := true }
    | .vStr s =>
        -- iterating a string yields characters, never dicts
        if s ≠ "" then
          .error (.scim (SCIMBadRequestError
            "Invalid member object in 'members' replace operation."))
        else .ok { st with current_user_ids := [], members_changed := true }
    | _ =>
        -- `for member_obj in op.value` over a non-iterable
        .error (.typeError "patch_group: 'members' replace value is not iterable")
  else
    .ok { st with current_user_ids := [], members_changed := true }

/-- The `add members` arm of `patch_group`: a falsy or non-list value is
BadRequest (so an empty list is rejected, not a no-op); otherwise union
each element into the staged set. -/
def addMembersArm (st : GroupPatchState) (value : PatchValue) :
    Except RouteErr GroupPatchState :=
  if ¬ truthyValue value ∨ ¬ value.isList then
    .error (.scim (SCIMBadRequestError
      "Invalid value for 'members' add operation; list expected."))
  else
    match value with
    | .vList items => addMembersLoop st items
    | _ => .error (.typeError "unreachable: isList checked above")

/-- The `remove` arm of `patch_group` for a present path: parse the id
out of `members[value eq "<id>"]` and drop it from the staged set if
present (absence is a no-op). -/
def removeMemberArm (st : GroupPatchState) (p : String) :
    Except RouteErr GroupPatchState :=
  if p ≠ "" ∧ pyStartsWith p "members[value eq" then
    match (pySplit p '"').get? 1 with
    | some user_id_to_remove =>
        if user_id_to_remove ∈ st.current_user_ids then
          .ok { st with current_user_ids := st.current_user_ids.erase user_id_to_remove
                        members_changed := true }
        else
          .ok st
    | none =>
        .error (.scim (SCIMBadRequestError
          "Invalid path format for 'members' remove operation."))
  else
    .error (.scim (SCIMNotImplementedError
      ("PATCH 'remove' for path '" ++ p ++ "' not implemented.")))

/-- One iteration of the `patch_group` operation loop
(`scim_groups.py` lines 219-267). -/
def patchGroupOp (all_groups : List GroupModel) (group_id : String)
    (group_model : GroupModel) (st : GroupPatchState) (op : SCIMPatchOp) :
    Except RouteErr GroupPatchState :=
  if pyLower op.op = "replace" then
    if truthyOptStr op.path ∧ pyLower (op.path.getD "") = "displayname" then
      replaceDisplayNameArm all_groups group_id group_model st op.value
    else if truthyOptStr op.path ∧ pyLower (op.path.getD "") = "members" then
      replaceMembersArm st op.value
    else
      .error (.scim (SCIMNotImplementedError
        ("PATCH 'replace' for path '" ++ pyShowOptStr op.path ++ "' not implemented.")))
  else if pyLower op.op = "add" then
    if truthyOptStr op.path ∧ pyLower (op.path.getD "") = "members" then
      addMembersArm st op.value
    else
      .error (.scim (SCIMNotImplementedError
        ("PATCH 'add' for path '" ++ pyShowOptStr op.path ++ "' not implemented.")))
  else if pyLower op.op = "remove" then
    match op.path with
    | some p => removeMemberArm st p
    | none =>
      if truthyValue op.value then
        .error (.scim (SCIMNotImplementedError
          "PATCH 'remove' members by value list not implemented; use path."))
      else
        .error (.scim (SCIMNotImplementedError
          "PATCH 'remove' for path 'None' not implemented."))
  else
    .error (.scim (SCIMNotImplementedError
      ("PATCH operation '" ++ op.op ++ "' not implemented.")))

/-- The operation loop of `patch_group`. -/
def patchGroupOps (all_groups : List GroupModel) (group_id : String)
    (group_model : GroupModel) (st : GroupPatchState) :
    List SCIMPatchOp → Except RouteErr GroupPatchState
  | [] => .ok st
  | op :: ops => do
      let s ← patchGroupOp all_groups group_id group_model st op
      patchGroupOps all_groups group_id group_model s ops

/-- `patch_group` (PATCH /Groups/{group_id}): fetch the group, stage the
member set `set(group_model.user_ids or [])`, run the operation loop,
merge `user_ids` into `db_updates` if membership changed, and issue at
most one `update_group_by_id` store write. Returns the final group record
and the list of store writes issued. -/
def patch_group (groups_store : List GroupModel) (group_id : String)
    (ops : List SCIMPatchOp) : Except RouteErr GroupModel × List GroupWrite :=
  match get_group_by_id groups_store group_id with
  | none => (.error (.scim (SCIMNotFoundError
      ("Group with ID '" ++ group_id ++ "' not found."))), [])
  | some group_model =>
    let st0 : GroupPatchState :=
      { db_updates := {}
        current_user_ids := setOfList group_model.user_ids
        members_changed := false }
    match patchGroupOps groups_store group_id group_model st0 ops with
    | .error e => (.error e, [])
    | .ok st =>
      let db_updates :=
        if st.members_changed then
          { st.db_updates with user_ids := some st.current_user_ids }
        else st.db_updates
      if db_updates.nonEmpty then
        (.ok (applyGroupUpdates group_model db_updates), [⟨group_id, db_updates⟩])
      else
        (.ok group_model, [])

/-! ## Schema Introspection Engine (`scim_schemas.py`) -/

/-- A sub-attribute of a complex SCIM schema attribute (one nesting level
is all the two resource models produce). -/
structure SCIMSchemaSubAttr where
  name : String
  type : String
  multiValued : Bool := false
  required : Bool := false
deriving Repr, DecidableEq

/-- A SCIM schema attribute as built by
`convert_properties_to_scim_attributes`. -/
structure SCIMSchemaAttribute where
  name : String
  type : String
  multiValued : Bool := false
  required : Bool := false
  subAttributes : Option (List SCIMSchemaSubAttr) := none
deriving Repr, DecidableEq

/-- `SCIMSchemaDefinition` with its `meta.location`. -/
structure SCIMSchemaDefinition where
  id : String
  name : String
  description : String
  attributes : List SCIMSchemaAttribute
  location : String
deriving Repr, DecidableEq

/-- The sub-attributes derived from the `SCIMName` model fields. -/
def nameSubAttributes : List SCIMSchemaSubAttr :=
  [⟨"formatted", "string", false, false⟩,
   ⟨"familyName", "string", false, false⟩,
   ⟨"givenName", "string", false, false⟩,
   ⟨"middleName", "string", false, false⟩,
   ⟨"honorificPrefix", "string", false, false⟩,
   ⟨"honorificSuffix", "string", false, false⟩]

/-- The attribute list `convert_properties_to_scim_attributes` computes
for the `SCIMUser` pydantic model. The pydantic JSON-schema generator is
an external library; what the cache claims need is only that this list is
a fixed value independent of the request's base URL (visible in the
source: `base_scim_url` reaches nothing but `meta.location`). -/
def userSchemaAttributes : List SCIMSchemaAttribute :=
  [⟨"schemas", "complex", true, false, none⟩,
   ⟨"id", "string", false, true, none⟩,
   ⟨"externalId", "string", false, false, none⟩,
   ⟨"userName", "string", false, true, none⟩,
   ⟨"name", "complex", false, false, some nameSubAttributes⟩,
   ⟨"displayName", "string", false, false, none⟩,
   ⟨"active", "boolean", false, false, none⟩,
   ⟨"password", "string", false, false, none⟩,
   ⟨"emails", "complex", true, false,
     some [⟨"value", "string", false, false⟩, ⟨"display", "string", false, false⟩,
           ⟨"type", "string", false, false⟩, ⟨"primary", "boolean", false, false⟩]⟩,
   ⟨"meta", "complex", false, true, none⟩]

/-- The attribute list computed for the `SCIMGroup` pydantic model. -/
def groupSchemaAttributes : List SCIMSchemaAttribute :=
  [⟨"schemas", "complex", true, false, none⟩,
   ⟨"id", "string", false, true, none⟩,
   ⟨"externalId", "string", false, false, none⟩,
   ⟨"displayName", "string", false, true, none⟩,
   ⟨"members", "complex", true, false,
     some [⟨"value", "string", false, true⟩, ⟨"$ref", "string", false, false⟩,
           ⟨"type", "string", false, false⟩, ⟨"display", "string", false, false⟩]⟩,
   ⟨"meta", "complex", false, true, none⟩]

/-- The `meta.location` URL of a schema resource. -/
def schemaLocation (base_scim_url urn : String) : String :=
  base_scim_url ++ "/Schemas/" ++ urn

/-- `pydantic_schema_to_scim_schema(SCIMUser, ...)`: deterministic;
only `meta.location` depends on the caller's base URL. -/
def computeUserSchema (base_scim_url : String) : SCIMSchemaDefinition :=
  { id := USER_SCHEMA_URN
    name := "User"
    description := "SCIM User Schema"
    attributes := userSchemaAttributes
    location := schemaLocation base_scim_url USER_SCHEMA_URN }

/-- `pydantic_schema_to_scim_schema(SCIMGroup, ...)`. -/
def computeGroupSchema (base_scim_url : String) : SCIMSchemaDefinition :=
  { id := GROUP_SCHEMA_URN
    name := "Group"
    description := "SCIM Group Schema"
    attributes := groupSchemaAttributes
    location := schemaLocation base_scim_url GROUP_SCHEMA_URN }

/-- The module-level cache `_USER_SCIM_SCHEMA_CACHE` /
`_GROUP_SCIM_SCHEMA_CACHE` (`scim_schemas.py` lines 219-220). -/
structure SchemaCache where
  userCache : Option SCIMSchemaDefinition := none
  groupCache : Option SCIMSchemaDefinition := none
deriving Repr, DecidableEq

/-- `get_schema_by_id` (GET /Schemas/{schema_id}, `scim_schemas.py`
lines 251-272): for a known URN, compute the definition once and cache
it, then rewrite the cached object's `meta.location` in place from the
current request's base URL on every call; an unknown URN raises
`SCIMNotFoundError`. Returns the response and the new cache state. -/
def get_schema_by_id (st : SchemaCache) (schema_id : String)
    (base_scim_url : String) : Except ScimErr SCIMSchemaDefinition × SchemaCache :=
  if schema_id = USER_SCHEMA_URN then
    let c := match st.userCache with
      | some c => c
      | none => computeUserSchema base_scim_url
    let c' := { c with location := schemaLocation base_scim_url USER_SCHEMA_URN }
    (.ok c', { st with userCache := some c' })
  else if schema_id = GROUP_SCHEMA_URN then
    let c := match st.groupCache with
      | some c => c
      | none => computeGroupSchema base_scim_url
    let c' := { c with location := schemaLocation base_scim_url GROUP_SCHEMA_URN }
    (.ok c', { st with groupCache := some c' })
  else
    (.error (SCIMNotFoundError ("Schema with ID '" ++ schema_id ++ "' not found.")), st)

/-! ## Spec-side definitions used by amended claims -/

/-- The user name-resolution precedence as the amended spec words it:
`name.formatted` > `displayName` > `givenName+familyName` (joined with a
single space) > `givenName` alone > `userName`; a familyName with no
givenName is ignored. Stated independently of the mapper's code for
comparison with `scim_user_to_db_dict`. -/
def resolveNameSpec (su : SCIMUser) : String :=
  if truthyOptStr (su.name.bind (·.formatted)) then
    (su.name.bind (·.formatted)).getD ""
  else if truthyOptStr su.displayName then
    su.displayName.getD ""
  else if truthyOptStr (su.name.bind (·.givenName)) then
    if truthyOptStr (su.name.bind (·.familyName)) then
      ((su.name.bind (·.givenName)).getD "") ++ " " ++ ((su.name.bind (·.familyName)).getD "")
    else
      (su.name.bind (·.givenName)).getD ""
  else
    su.userName

/-- The schema-cache invariant: whatever is cached for a resource type is
the once-computed definition for that type, up to the `location` field
(which the endpoint rewrites per request). -/
def GoodCache (st : SchemaCache) : Prop :=
  (∀ c, st.userCache = some c →
    c.id = USER_SCHEMA_URN ∧ c.name = "User" ∧ c.description = "SCIM User Schema"
      ∧ c.attributes = userSchemaAttributes) ∧
  (∀ c, st.groupCache = some c →
    c.id = GROUP_SCHEMA_URN ∧ c.name = "Group" ∧ c.description = "SCIM Group Schema"
      ∧ c.attributes = groupSchemaAttributes)

/-! ## Helper lemmas -/

theorem mem_setAdd (acc : List String) (y x : String) :
    x ∈ setAdd acc y ↔ x ∈ acc ∨ x = y := by
  unfold setAdd
  split
  · rename_i h
    constructor
    · exact fun hx => Or.inl hx
    · rintro (hx | rfl)
      · exact hx
      · exact h
  · simp [List.mem_append]

theorem mem_foldl_setAdd (l : List String) (acc : List String) (x : String) :
    x ∈ l.foldl setAdd acc ↔ x ∈ acc ∨ x ∈ l := by
  induction l generalizing acc with
  | nil => simp
  | cons y ys ih =>
      simp only [List.foldl_cons, ih, mem_setAdd, List.mem_cons]
      tauto

theorem mem_setOfList (l : List String) (x : String) :
    x ∈ setOfList l ↔ x ∈ l := by
  simp [setOfList, mem_foldl_setAdd]

/-! ## Claims -/

/-- C2: the claim says a User (or Group) record with an absent
modification timestamp but a present creation timestamp is mapped to wire
output with `meta.lastModified` equal to `meta.created`, never null. The
code disagrees: the `elif created_dt` default sits inside
`if updated_at is not None`, so with `updated_at = None` the wire
`lastModified` is left `None` while `created` is populated — for both the
user and the group mapper. -/
theorem C2_lastModified_left_null :
    ((user_to_scim_user ⟨"u1", "alice@example.com", "Alice Smith", "user",
        some 1670000000, none⟩ "http://h/scim/v2").meta.created = some 1670000000
      ∧ (user_to_scim_user ⟨"u1", "alice@example.com", "Alice Smith", "user",
        some 1670000000, none⟩ "http://h/scim/v2").meta.lastModified = none)
    ∧ ((group_to_scim_group ⟨"g1", "Eng", ["u1"], some 1670000000, none⟩ []
        "http://h/scim/v2").meta.created = some 1670000000
      ∧ (group_to_scim_group ⟨"g1", "Eng", ["u1"], some 1670000000, none⟩ []
        "http://h/scim/v2").meta.lastModified = none) := by
  decide

/-- C3 counterexample: a wire user carrying only `name.familyName`
(no formatted, displayName or givenName) resolves to the `userName`
fallback, not to the familyName as the claim's precedence demands. -/
theorem C3_familyName_only_counterexample :
    (scim_user_to_db_dict
      { id := "", userName := "solo@example.com",
        name := some { familyName := some "Solo" },
        meta := { resourceType := "User" } }).name = "solo@example.com"
    ∧ "solo@example.com" ≠ "Solo" := by
  decide

/-- C3 amended: the name precedence implemented by `scim_user_to_db_dict`
is `name.formatted` > `displayName` > `givenName+familyName` >
`givenName` alone > `userName`; a familyName without a givenName is
ignored (there is no familyName-alone step). -/
theorem C3_name_precedence_amended (su : SCIMUser) :
    (scim_user_to_db_dict su).name = resolveNameSpec su := by
  unfold scim_user_to_db_dict resolveNameSpec
  cases hn : su.name with
  | none => simp [truthyOptStr]
  | some n =>
      simp only [Option.some_bind, Option.isSome_some, true_and]
      by_cases h1 : truthyOptStr n.formatted = true <;>
        by_cases h2 : truthyOptStr su.displayName = true <;>
          by_cases h3 : truthyOptStr n.givenName = true <;>
            by_cases h4 : truthyOptStr n.familyName = true <;>
              simp [h1, h2, h3, h4]

/-- C1 counterexample: PATCH `replace active` with value `true` on a user
whose current role is `admin` (non-pending) sets the role to `user`
instead of leaving it unchanged, contradicting the claim's "any other
(non-pending) role is left unchanged". -/
theorem C1_active_true_overwrites_admin :
    patch_user [⟨"u1", "a@b.c", "Admin", "admin", none, none⟩] "u1"
      [⟨"replace", some "active", .vBool true⟩]
    = (.ok ⟨"u1", "a@b.c", "Admin", "user", none, none⟩,
       [⟨"u1", { role := some "user" }⟩])
    ∧ "user" ≠ "admin" := by
  decide

/-- C1 amended: for a User PATCH `replace active` with boolean value,
the role written is `"user"` when the value is true — unconditionally,
whatever the current role — and `"pending"` when false, in one store
write; a non-boolean value raises BadRequest and writes nothing. -/
theorem C1_active_patch_amended (store : List UserModel) (user_id : String)
    (u : UserModel) (b : Bool) (v : PatchValue)
    (hu : get_user_by_id store user_id = some u) (hv : v.isBool = false) :
    patch_user store user_id [⟨"replace", some "active", .vBool b⟩]
      = (.ok { u with role := if b then "user" else "pending" },
         [⟨user_id, { role := some (if b then "user" else "pending") }⟩])
    ∧ patch_user store user_id [⟨"replace", some "active", v⟩]
      = (.error (.scim (SCIMBadRequestError
          "Invalid value for 'active', boolean expected.")), []) := by
  constructor
  · have hops : patchUserOps store user_id u {}
        [⟨"replace", some "active", PatchValue.vBool b⟩]
        = .ok { role := some (if b then "user" else "pending"), email := none } := by
      cases b <;> rfl
    unfold patch_user
    rw [hu]
    dsimp only
    rw [hops]
    cases b <;> simp [UserDbUpdates.nonEmpty, applyUserUpdates]
  · have hops : patchUserOps store user_id u {} [⟨"replace", some "active", v⟩]
        = .error (.scim (SCIMBadRequestError
            "Invalid value for 'active', boolean expected.")) := by
      cases v with
      | vBool b => simp [PatchValue.isBool] at hv
      | vNone => rfl
      | vStr s => rfl
      | vList items => rfl
    unfold patch_user
    rw [hu]
    dsimp only
    rw [hops]

/-- C7: creating a User whose `userName` equals an existing user's email
fails with Conflict (HTTP 409, scimType `uniqueness`) and leaves the
store unchanged — both checks run before `insert_new_auth`. -/
theorem C7_create_duplicate_email_conflict (store : List UserModel)
    (payload : SCIMUser) (fresh_id : String) (now : Int) (u : UserModel)
    (hmem : u ∈ store) (hemail : u.email = payload.userName)
    (hne : payload.userName ≠ "") :
    create_user store payload fresh_id now
      = (.error (.scim (SCIMConflictError
          ("User with userName '" ++ payload.userName ++ "' already exists."))), store) := by
  unfold create_user
  rw [if_neg hne]
  have hsome : (get_user_by_email store payload.userName).isSome := by
    unfold get_user_by_email
    rw [List.find?_isSome]
    exact ⟨u, hmem, by simp [hemail]⟩
  obtain ⟨w, hw⟩ := Option.isSome_iff_exists.mp hsome
  rw [hw]

/-- C8: a Group PATCH `remove members[value eq "X"]` where `X` is not in
the staged member set succeeds as a no-op: no error, the group is
returned unchanged, and no store write is issued. -/
theorem C8_remove_absent_member_noop (store : List GroupModel)
    (group_id : String) (g : GroupModel) (p X : String)
    (hg : get_group_by_id store group_id = some g)
    (hpne : p ≠ "") (hpre : pyStartsWith p "members[value eq" = true)
    (hX : (pySplit p '"').get? 1 = some X) (hmem : X ∉ g.user_ids) :
    patch_group store group_id [⟨"remove", some p, .vNone⟩] = (.ok g, []) := by
  have hnotin : X ∉ setOfList g.user_ids := fun hc =>
    hmem ((mem_setOfList g.user_ids X).mp hc)
  have hop : patchGroupOp store group_id g
      { db_updates := {}, current_user_ids := setOfList g.user_ids,
        members_changed := false }
      ⟨"remove", some p, .vNone⟩
      = .ok { db_updates := {}, current_user_ids := setOfList g.user_ids,
              members_changed := false } := by
    have hbr : patchGroupOp store group_id g
        { db_updates := {}, current_user_ids := setOfList g.user_ids,
          members_changed := false }
        ⟨"remove", some p, .vNone⟩
        = removeMemberArm
            { db_updates := {}, current_user_ids := setOfList g.user_ids,
              members_changed := false } p := rfl
    rw [hbr]
    unfold removeMemberArm
    rw [if_pos (And.intro hpne hpre), hX]
    dsimp only
    rw [if_neg hnotin]
  unfold patch_group
  rw [hg]
  dsimp only
  unfold patchGroupOps
  rw [hop]
  rfl

/-- C10: a Group PATCH `add members` whose value is missing, not a list,
or an empty list fails with BadRequest before any write: the request
aborts with no store write, so the stored group is unchanged. -/
theorem C10_add_members_bad_value (store : List GroupModel)
    (group_id : String) (g : GroupModel) (v : PatchValue)
    (hg : get_group_by_id store group_id = some g)
    (hv : ∀ x xs, v ≠ .vList (x :: xs)) :
    patch_group store group_id [⟨"add", some "members", v⟩]
      = (.error (.scim (SCIMBadRequestError
          "Invalid value for 'members' add operation; list expected.")), []) := by
  have hop : patchGroupOp store group_id g
      { db_updates := {}, current_user_ids := setOfList g.user_ids,
        members_changed := false }
      ⟨"add", some "members", v⟩
      = .error (.scim (SCIMBadRequestError
          "Invalid value for 'members' add operation; list expected.")) := by
    have hbr : patchGroupOp store group_id g
        { db_updates := {}, current_user_ids := setOfList g.user_ids,
          members_changed := false }
        ⟨"add", some "members", v⟩
        = addMembersArm
            { db_updates := {}, current_user_ids := setOfList g.user_ids,
              members_changed := false } v := rfl
    rw [hbr]
    cases v with
    | vNone => rfl
    | vBool b => cases b <;> rfl
    | vStr str => simp [addMembersArm, PatchValue.isList]
    | vList items =>
        cases items with
        | nil => rfl
        | cons x xs => exact absurd rfl (hv x xs)
  unfold patch_group
  rw [hg]
  dsimp only
  unfold patchGroupOps
  rw [hop]
  rfl

theorem addMembersLoop_map_withValue (vs : List String) (st : GroupPatchState) :
    addMembersLoop st (vs.map .withValue)
      = .ok { st with current_user_ids := vs.foldl setAdd st.current_user_ids
                      members_changed := st.members_changed || !vs.isEmpty } := by
  induction vs generalizing st with
  | nil => simp [addMembersLoop]
  | cons v rest ih =>
      simp only [List.map_cons, addMembersLoop, List.foldl_cons, ih,
        List.isEmpty_cons, Bool.not_false, Bool.or_true, Bool.true_or]

/-- C4 counterexample: a Group PATCH that changes both the scalar
`displayName` and the membership set issues exactly one store write
(a single `update_group_by_id` call carrying both `name` and `user_ids`),
not the two writes the claim asserts. -/
theorem C4_two_changes_single_write_counterexample :
    (patch_group [⟨"g1", "Eng", ["u1"], none, none⟩] "g1"
      [⟨"replace", some "displayName", .vStr "Platform"⟩,
       ⟨"add", some "members", .vList [.withValue "u2"]⟩]).2
      = [⟨"g1", { name := some "Platform", user_ids := some ["u1", "u2"] }⟩]
    ∧ (patch_group [⟨"g1", "Eng", ["u1"], none, none⟩] "g1"
      [⟨"replace", some "displayName", .vStr "Platform"⟩,
       ⟨"add", some "members", .vList [.withValue "u2"]⟩]).2.length ≠ 2 := by
  decide

/-- C4 amended: a Group PATCH changing both `displayName` and the member
set accumulates both changed attribute groups into one update dict and
issues exactly one store write carrying `name` and `user_ids` together
(the engine never splits changed attribute groups into separate calls). -/
theorem C4_combined_write_amended (store : List GroupModel) (group_id : String)
    (g : GroupModel) (new_name : String) (vs : List String)
    (hg : get_group_by_id store group_id = some g)
    (hname : new_name ≠ g.name)
    (hconf : store.any (fun g' => g'.name = new_name ∧ g'.id ≠ group_id) = false)
    (hvs : vs ≠ []) :
    patch_group store group_id
      [⟨"replace", some "displayName", .vStr new_name⟩,
       ⟨"add", some "members", .vList (vs.map .withValue)⟩]
      = (.ok { g with name := new_name
                      user_ids := vs.foldl setAdd (setOfList g.user_ids) },
         [⟨group_id, { name := some new_name
                       user_ids := some (vs.foldl setAdd (setOfList g.user_ids)) }⟩]) := by
  have h1 : patchGroupOp store group_id g
      { db_updates := {}, current_user_ids := setOfList g.user_ids,
        members_changed := false }
      ⟨"replace", some "displayName", .vStr new_name⟩
      = .ok { db_updates := { name := some new_name },
              current_user_ids := setOfList g.user_ids,
              members_changed := false } := by
    have hbr : patchGroupOp store group_id g
        { db_updates := {}, current_user_ids := setOfList g.user_ids,
          members_changed := false }
        ⟨"replace", some "displayName", .vStr new_name⟩
        = replaceDisplayNameArm store group_id g
            { db_updates := {}, current_user_ids := setOfList g.user_ids,
              members_changed := false } (.vStr new_name) := rfl
    rw [hbr]
    unfold replaceDisplayNameArm
    dsimp only [PatchValue.pyStr]
    rw [if_pos hname, if_neg (by simp only [hconf]; decide)]
  have h2 : patchGroupOp store group_id g
      { db_updates := { name := some new_name },
        current_user_ids := setOfList g.user_ids,
        members_changed := false }
      ⟨"add", some "members", .vList (vs.map .withValue)⟩
      = .ok { db_updates := { name := some new_name },
              current_user_ids := vs.foldl setAdd (setOfList g.user_ids),
              members_changed := true } := by
    have hbr : patchGroupOp store group_id g
        { db_updates := { name := some new_name },
          current_user_ids := setOfList g.user_ids,
          members_changed := false }
        ⟨"add", some "members", .vList (vs.map .withValue)⟩
        = addMembersArm
            { db_updates := { name := some new_name },
              current_user_ids := setOfList g.user_ids,
              members_changed := false } (.vList (vs.map .withValue)) := rfl
    rw [hbr]
    cases vs with
    | nil => exact absurd rfl hvs
    | cons v rest =>
        have harm : addMembersArm
            { db_updates := { name := some new_name },
              current_user_ids := setOfList g.user_ids,
              members_changed := false }
            (.vList ((v :: rest).map .withValue))
            = addMembersLoop
                { db_updates := { name := some new_name },
                  current_user_ids := setOfList g.user_ids,
                  members_changed := false }
                ((v :: rest).map .withValue) := rfl
        rw [harm, addMembersLoop_map_withValue]
        simp
  unfold patch_group
  rw [hg]
  dsimp only
  unfold patchGroupOps
  rw [h1]
  show (match patchGroupOps store group_id g _ _ with
        | Except.error e => (Except.error e, [])
        | Except.ok st => _) = _
  unfold patchGroupOps
  rw [h2]
  rfl

theorem pySplit_empty : pySplit "" ' ' = [""] := rfl

theorem parseEqFilter_accepts (attr f a b c : String)
    (h : pySplit f ' ' = [a, b, c]) (ha : pyLower a = attr) (hb : pyLower b = "eq") :
    parseEqFilter attr (some f) = .ok (some (pyStrip c '"')) := by
  have hf : f ≠ "" := by
    intro hfe
    rw [hfe, pySplit_empty] at h
    simp at h
  unfold parseEqFilter
  dsimp only
  rw [if_neg hf, h]
  dsimp only
  rw [if_pos (And.intro ha hb)]

theorem parseEqFilter_rejects (attr f : String) (hf : f ≠ "")
    (h : ∀ a b c, pySplit f ' ' = [a, b, c] → ¬(pyLower a = attr ∧ pyLower b = "eq")) :
    parseEqFilter attr (some f)
      = .error (SCIMNotImplementedError ("Filter syntax not supported: " ++ f)) := by
  unfold parseEqFilter
  dsimp only
  rw [if_neg hf]
  rcases hps : pySplit f ' ' with _ | ⟨a, _ | ⟨b, _ | ⟨c, _ | ⟨d, rest⟩⟩⟩⟩ <;>
    first
    | rfl
    | (dsimp only; rw [if_neg (h _ _ _ hps)])

theorem get_groups_accepted_filter (store : List GroupModel)
    (users : List UserModel) (p : ListParams) (base_url f v : String)
    (hfil : p.filter = some f)
    (hparse : parseEqFilter "displayname" (some f) = .ok (some v))
    (hsb : p.sortBy = none) (hso : p.sortOrder = none)
    (hat : p.attributes = none) (hex : p.excludedAttributes = none) :
    get_groups store users p base_url = .ok
      { schemas := [LIST_RESPONSE_URN]
        totalResults := (store.filter (fun g => g.name = v)).length
        startIndex := p.startIndex
        itemsPerPage := ((pySlice (store.filter (fun g => g.name = v))
            (p.startIndex - 1) (p.startIndex - 1 + p.count)).map
          (fun g => group_to_scim_group g (get_users_by_user_ids users g.user_ids)
            base_url)).length
        Resources := (pySlice (store.filter (fun g => g.name = v))
            (p.startIndex - 1) (p.startIndex - 1 + p.count)).map
          (fun g => group_to_scim_group g (get_users_by_user_ids users g.user_ids)
            base_url) } := by
  obtain ⟨si, cnt, fil, sb, so, attrs, ex⟩ := p
  dsimp only at hfil hsb hso hat hex ⊢
  subst hfil hsb hso hat hex
  unfold get_groups
  dsimp only
  rw [hparse]
  rfl

/-- C5 counterexample: the filter `displayName eq "Engineering Team"`
has the claimed single-clause form with a quoted value, yet the Groups
listing rejects it with NotImplemented, because the parser splits on
spaces before looking at the quotes — the claim's "arbitrary quoted
value" acceptance is false. -/
theorem C5_quoted_value_with_space_rejected :
    get_groups [⟨"g1", "Engineering Team", [], none, none⟩] []
      { filter := some "displayName eq \"Engineering Team\"" } "http://h/scim/v2"
      = .error (.scim (SCIMNotImplementedError
          "Filter syntax not supported: displayName eq \"Engineering Team\"")) := by
  decide

/-- C5 amended: a filter is accepted exactly when splitting it on spaces
yields exactly three tokens whose first matches the allowed attribute
(`userName` for Users, `displayName` for Groups) and whose second is
`eq`, both case-insensitively; the value is the third token with all
surrounding double quotes stripped — so quotes are not required and a
quoted value containing a space is rejected with NotImplemented; an
accepted Groups filter with stripped value v returns exactly the groups
whose name is the literal string v. -/
theorem C5_single_clause_filter_amended :
    (∀ f a b c, pySplit f ' ' = [a, b, c] → pyLower a = "username" →
      pyLower b = "eq" →
      parseEqFilter "username" (some f) = .ok (some (pyStrip c '"')))
    ∧ (∀ f a b c, pySplit f ' ' = [a, b, c] → pyLower a = "displayname" →
      pyLower b = "eq" →
      parseEqFilter "displayname" (some f) = .ok (some (pyStrip c '"')))
    ∧ (∀ attr f, f ≠ "" →
      (∀ a b c, pySplit f ' ' = [a, b, c] → ¬(pyLower a = attr ∧ pyLower b = "eq")) →
      parseEqFilter attr (some f)
        = .error (SCIMNotImplementedError ("Filter syntax not supported: " ++ f)))
    ∧ (∀ store users p base_url f v,
      p.filter = some f →
      parseEqFilter "displayname" (some f) = .ok (some v) →
      p.sortBy = none → p.sortOrder = none →
      p.attributes = none → p.excludedAttributes = none →
      get_groups store users p base_url = .ok
        { schemas := [LIST_RESPONSE_URN]
          totalResults := (store.filter (fun g => g.name = v)).length
          startIndex := p.startIndex
          itemsPerPage := ((pySlice (store.filter (fun g => g.name = v))
              (p.startIndex - 1) (p.startIndex - 1 + p.count)).map
            (fun g => group_to_scim_group g (get_users_by_user_ids users g.user_ids)
              base_url)).length
          Resources := (pySlice (store.filter (fun g => g.name = v))
              (p.startIndex - 1) (p.startIndex - 1 + p.count)).map
            (fun g => group_to_scim_group g (get_users_by_user_ids users g.user_ids)
              base_url) }) :=
  ⟨fun f a b c h ha hb => parseEqFilter_accepts "username" f a b c h ha hb,
   fun f a b c h ha hb => parseEqFilter_accepts "displayname" f a b c h ha hb,
   fun attr f hf h => parseEqFilter_rejects attr f hf h,
   fun store users p base_url f v hfil hparse hsb hso hat hex =>
     get_groups_accepted_filter store users p base_url f v hfil hparse hsb hso hat hex⟩

theorem pySlice_eq_take_drop (l : List α) (a n : Nat) :
    pySlice l a (a + n) = (l.drop a).take n := by
  simp [pySlice]

theorem pySlice_length_le (l : List α) (a n : Nat) :
    (pySlice l a (a + n)).length ≤ n := by
  rw [pySlice_eq_take_drop]
  exact (List.length_take ..).trans_le (min_le_left ..)

theorem pySlice_past_end (l : List α) (a b : Nat) (h : l.length ≤ a) :
    pySlice l a b = [] := by
  simp [pySlice, List.drop_eq_nil_of_le h]

theorem get_groups_paginates (store : List GroupModel) (users : List UserModel)
    (p : ListParams) (base_url : String) (fo : Option String)
    (hparse : parseEqFilter "displayname" p.filter = .ok fo)
    (hsb : p.sortBy = none) (hso : p.sortOrder = none)
    (hat : p.attributes = none) (hex : p.excludedAttributes = none) :
    get_groups store users p base_url = .ok
      { schemas := [LIST_RESPONSE_URN]
        totalResults := (filteredGroups store fo).length
        startIndex := p.startIndex
        itemsPerPage := ((pySlice (filteredGroups store fo)
            (p.startIndex - 1) (p.startIndex - 1 + p.count)).map
          (fun g => group_to_scim_group g (get_users_by_user_ids users g.user_ids)
            base_url)).length
        Resources := (pySlice (filteredGroups store fo)
            (p.startIndex - 1) (p.startIndex - 1 + p.count)).map
          (fun g => group_to_scim_group g (get_users_by_user_ids users g.user_ids)
            base_url) } := by
  obtain ⟨si, cnt, fil, sb, so, attrs, ex⟩ := p
  dsimp only at hparse hsb hso hat hex ⊢
  subst hsb hso hat hex
  unfold get_groups
  dsimp only
  rw [hparse]
  rfl

/-- C6: the claim's pagination semantics — page = slice of the filtered
sequence at 0-based offset `startIndex-1` of length at most `count`,
`totalResults` = filtered length, `itemsPerPage` = number returned,
out-of-range `startIndex` gives an empty page, not an error — hold for
the Groups listing, but the Users listing can never return at all:
`scim_users.py` uses `LIST_RESPONSE_URN` without importing it, so every
request that reaches the response construction dies with a `NameError`
(HTTP 500), although the repository's own tests assert 200 responses. -/
theorem C6_pagination_and_users_name_error :
    (get_users [⟨"u1", "alice@example.com", "Alice", "user",
        some 1670000000, some 1670000000⟩] {} "http://h/scim/v2"
      = .error (.nameError "LIST_RESPONSE_URN"))
    ∧ (∀ store users p base_url fo,
      parseEqFilter "displayname" p.filter = .ok fo →
      p.sortBy = none → p.sortOrder = none →
      p.attributes = none → p.excludedAttributes = none →
      1 ≤ p.startIndex →
      get_groups store users p base_url = .ok
        { schemas := [LIST_RESPONSE_URN]
          totalResults := (filteredGroups store fo).length
          startIndex := p.startIndex
          itemsPerPage := ((pySlice (filteredGroups store fo)
              (p.startIndex - 1) (p.startIndex - 1 + p.count)).map
            (fun g => group_to_scim_group g (get_users_by_user_ids users g.user_ids)
              base_url)).length
          Resources := (pySlice (filteredGroups store fo)
              (p.startIndex - 1) (p.startIndex - 1 + p.count)).map
            (fun g => group_to_scim_group g (get_users_by_user_ids users g.user_ids)
              base_url) }
      ∧ (pySlice (filteredGroups store fo)
          (p.startIndex - 1) (p.startIndex - 1 + p.count)).length ≤ p.count
      ∧ ((filteredGroups store fo).length ≤ p.startIndex - 1 →
          pySlice (filteredGroups store fo)
            (p.startIndex - 1) (p.startIndex - 1 + p.count) = [])) := by
  constructor
  · decide
  · intro store users p base_url fo hparse hsb hso hat hex _
    refine ⟨get_groups_paginates store users p base_url fo hparse hsb hso hat hex,
      pySlice_length_le _ _ _, fun hpast => pySlice_past_end _ _ _ hpast⟩

/-- C9: schema lookup by resource-type URN is idempotent. Starting from
the empty process cache (an invariant-preserving state machine): a call
with a known URN always succeeds with the same once-computed attribute
list — on a cache hit nothing is recomputed, only `meta.location` is
rewritten from the caller's current base URL — and the (possibly
freshly computed) definition is cached; a call with an unknown URN fails
with NotFound and leaves the cache untouched. -/
theorem C9_schema_lookup_idempotent :
    GoodCache {}
    ∧ (∀ st base_url, GoodCache st →
      GoodCache (get_schema_by_id st USER_SCHEMA_URN base_url).2
      ∧ ∃ d, (get_schema_by_id st USER_SCHEMA_URN base_url).1 = .ok d
          ∧ d.attributes = userSchemaAttributes
          ∧ d.location = schemaLocation base_url USER_SCHEMA_URN
          ∧ (get_schema_by_id st USER_SCHEMA_URN base_url).2.userCache = some d)
    ∧ (∀ st base_url, GoodCache st →
      GoodCache (get_schema_by_id st GROUP_SCHEMA_URN base_url).2
      ∧ ∃ d, (get_schema_by_id st GROUP_SCHEMA_URN base_url).1 = .ok d
          ∧ d.attributes = groupSchemaAttributes
          ∧ d.location = schemaLocation base_url GROUP_SCHEMA_URN
          ∧ (get_schema_by_id st GROUP_SCHEMA_URN base_url).2.groupCache = some d)
    ∧ (∀ st schema_id base_url,
      schema_id ≠ USER_SCHEMA_URN → schema_id ≠ GROUP_SCHEMA_URN →
      get_schema_by_id st schema_id base_url
        = (.error (SCIMNotFoundError
            ("Schema with ID '" ++ schema_id ++ "' not found.")), st)) := by
  refine ⟨⟨fun c hc => by simp at hc, fun c hc => by simp at hc⟩, ?_, ?_, ?_⟩
  · intro st base_url hst
    unfold get_schema_by_id
    rw [if_pos rfl]
    cases hc : st.userCache with
    | none =>
        dsimp only
        exact ⟨⟨fun c h => by
            simp only [Option.some.injEq] at h
            subst h
            exact ⟨rfl, rfl, rfl, rfl⟩,
          fun c h => hst.2 c h⟩,
          _, rfl, rfl, rfl, rfl⟩
    | some c =>
        dsimp only
        obtain ⟨hid, hnm, hdesc, hattrs⟩ := hst.1 c hc
        exact ⟨⟨fun c' h => by
            simp only [Option.some.injEq] at h
            subst h
            exact ⟨hid, hnm, hdesc, hattrs⟩,
          fun c' h => hst.2 c' h⟩,
          _, rfl, hattrs, rfl, rfl⟩
  · intro st base_url hst
    unfold get_schema_by_id
    rw [if_neg (by decide), if_pos rfl]
    cases hc : st.groupCache with
    | none =>
        dsimp only
        exact ⟨⟨fun c h => hst.1 c h,
          fun c h => by
            simp only [Option.some.injEq] at h
            subst h
            exact ⟨rfl, rfl, rfl, rfl⟩⟩,
          _, rfl, rfl, rfl, rfl⟩
    | some c =>
        dsimp only
        obtain ⟨hid, hnm, hdesc, hattrs⟩ := hst.2 c hc
        exact ⟨⟨fun c' h => hst.1 c' h,
          fun c' h => by
            simp only [Option.some.injEq] at h
            subst h
            exact ⟨hid, hnm, hdesc, hattrs⟩⟩,
          _, rfl, hattrs, rfl, rfl⟩
  · intro st schema_id base_url h1 h2
    unfold get_schema_by_id
    rw [if_neg h1, if_neg h2]

/-! ## Witnesses: the hypothesis-bearing theorems at concrete inputs -/

theorem C1_active_patch_amended_witness :
    patch_user [⟨"u1", "a@b.c", "Ana", "admin", none, none⟩] "u1"
      [⟨"replace", some "active", .vBool false⟩]
      = (.ok ⟨"u1", "a@b.c", "Ana", "pending", none, none⟩,
         [⟨"u1", { role := some "pending" }⟩])
    ∧ patch_user [⟨"u1", "a@b.c", "Ana", "admin", none, none⟩] "u1"
      [⟨"replace", some "active", .vStr "yes"⟩]
      = (.error (.scim (SCIMBadRequestError
          "Invalid value for 'active', boolean expected.")), []) := by
  have h := C1_active_patch_amended [⟨"u1", "a@b.c", "Ana", "admin", none, none⟩]
    "u1" ⟨"u1", "a@b.c", "Ana", "admin", none, none⟩ false (.vStr "yes") rfl rfl
  exact ⟨h.1, h.2⟩

theorem C7_create_duplicate_email_conflict_witness :
    create_user [⟨"u1", "a@b.c", "Alice", "user", none, none⟩]
      { id := "", userName := "a@b.c", meta := { resourceType := "User" } } "fresh" 5
      = (.error (.scim (SCIMConflictError
          "User with userName 'a@b.c' already exists.")),
         [⟨"u1", "a@b.c", "Alice", "user", none, none⟩]) := by
  have h := C7_create_duplicate_email_conflict
    [⟨"u1", "a@b.c", "Alice", "user", none, none⟩]
    { id := "", userName := "a@b.c", meta := { resourceType := "User" } }
    "fresh" 5 ⟨"u1", "a@b.c", "Alice", "user", none, none⟩
    (List.mem_singleton.mpr rfl) rfl (by decide)
  exact h

theorem C8_remove_absent_member_noop_witness :
    patch_group [⟨"g1", "Eng", ["u1"], none, none⟩] "g1"
      [⟨"remove", some "members[value eq \"u9\"]", .vNone⟩]
      = (.ok ⟨"g1", "Eng", ["u1"], none, none⟩, []) := by
  have h := C8_remove_absent_member_noop [⟨"g1", "Eng", ["u1"], none, none⟩]
    "g1" ⟨"g1", "Eng", ["u1"], none, none⟩ "members[value eq \"u9\"]" "u9"
    rfl (by decide) (by decide) (by decide) (by decide)
  exact h

theorem C10_add_members_bad_value_witness :
    patch_group [⟨"g1", "Eng", ["u1"], none, none⟩] "g1"
      [⟨"add", some "members", .vList []⟩]
      = (.error (.scim (SCIMBadRequestError
          "Invalid value for 'members' add operation; list expected.")), []) := by
  have h := C10_add_members_bad_value [⟨"g1", "Eng", ["u1"], none, none⟩]
    "g1" ⟨"g1", "Eng", ["u1"], none, none⟩ (.vList [])
    rfl (fun x xs hx => by simp at hx)
  exact h

theorem C4_combined_write_amended_witness :
    patch_group [⟨"g1", "Eng", ["u1"], none, none⟩] "g1"
      [⟨"replace", some "displayName", .vStr "Platform"⟩,
       ⟨"add", some "members", .vList [.withValue "u2"]⟩]
      = (.ok ⟨"g1", "Platform", ["u1", "u2"], none, none⟩,
         [⟨"g1", { name := some "Platform", user_ids := some ["u1", "u2"] }⟩]) := by
  have h := C4_combined_write_amended [⟨"g1", "Eng", ["u1"], none, none⟩]
    "g1" ⟨"g1", "Eng", ["u1"], none, none⟩ "Platform" ["u2"]
    rfl (by decide) (by decide) (by decide)
  exact h

theorem C5_single_clause_filter_amended_witness :
    parseEqFilter "username" (some "userName eq alice") = .ok (some "alice")
    ∧ parseEqFilter "displayname" (some "displayName EQ \"Eng\"") = .ok (some "Eng")
    ∧ parseEqFilter "displayname" (some "id eq x")
        = .error (SCIMNotImplementedError "Filter syntax not supported: id eq x")
    ∧ get_groups [⟨"g1", "Eng", [], none, none⟩, ⟨"g2", "Ops", [], none, none⟩] []
        { filter := some "displayName eq \"Eng\"" } "http://h"
        = .ok { schemas := [LIST_RESPONSE_URN], totalResults := 1, startIndex := 1,
                itemsPerPage := 1,
                Resources := [group_to_scim_group ⟨"g1", "Eng", [], none, none⟩ [] "http://h"] } := by
  have h := C5_single_clause_filter_amended
  refine ⟨h.1 "userName eq alice" "userName" "eq" "alice" rfl (by decide) rfl, ?_, ?_, ?_⟩
  · exact h.2.1 "displayName EQ \"Eng\"" "displayName" "EQ" "\"Eng\"" rfl (by decide) (by decide)
  · refine h.2.2.1 "displayname" "id eq x" (by decide) ?_
    intro a b c hs
    rw [show pySplit "id eq x" ' ' = ["id", "eq", "x"] from rfl] at hs
    simp only [List.cons.injEq, and_true] at hs
    obtain ⟨ha, hb, _⟩ := hs
    subst ha
    subst hb
    decide
  · exact h.2.2.2 [⟨"g1", "Eng", [], none, none⟩, ⟨"g2", "Ops", [], none, none⟩] []
      { filter := some "displayName eq \"Eng\"" } "http://h"
      "displayName eq \"Eng\"" "Eng" rfl (by decide) rfl rfl rfl rfl

theorem C6_pagination_and_users_name_error_witness :
    get_groups [⟨"g1", "A", [], none, none⟩, ⟨"g2", "B", [], none, none⟩,
        ⟨"g3", "C", [], none, none⟩] []
      { startIndex := 2, count := 1 } "http://h"
      = .ok { schemas := [LIST_RESPONSE_URN], totalResults := 3, startIndex := 2,
              itemsPerPage := 1,
              Resources := [group_to_scim_group ⟨"g2", "B", [], none, none⟩ [] "http://h"] } := by
  have h := C6_pagination_and_users_name_error.2
    [⟨"g1", "A", [], none, none⟩, ⟨"g2", "B", [], none, none⟩,
     ⟨"g3", "C", [], none, none⟩] []
    { startIndex := 2, count := 1 } "http://h" none rfl rfl rfl rfl rfl (by decide)
  exact h.1

theorem C9_schema_lookup_idempotent_witness :
    GoodCache ({} : SchemaCache)
    ∧ GoodCache (get_schema_by_id {} USER_SCHEMA_URN "http://h/scim/v2").2
    ∧ get_schema_by_id {} "urn:nope" "http://h/scim/v2"
        = (.error (SCIMNotFoundError "Schema with ID 'urn:nope' not found."), {}) := by
  have h := C9_schema_lookup_idempotent
  exact ⟨h.1, (h.2.1 {} "http://h/scim/v2" h.1).1,
    h.2.2.2 {} "urn:nope" "http://h/scim/v2" (by decide) (by decide)⟩

end Scim
